import Mathlib

/-!
Verification development for the sharded-tensor wrapper fragment
(torch_xla/experimental/xla_sharded_tensor.py).

The fragment defines three pieces:
  * XLAShard, a dataclass pairing a per-device data buffer with a device rank;
  * no_dispatch, a context manager allocating a _DisableTorchDispatch guard
    on entry and deleting it in a finally block;
  * XLAShardedTensor, a torch.Tensor wrapper subclass with a construction
    routine (new), a size property returning the global shape, and a
    dispatch-interception hook that unwraps operand trees, re-dispatches the
    operation under no_dispatch, and rewraps the result tree.

The embedding below models torch tensors with an explicit object identity
(tid), Python object trees as rose trees over a small value universe, the
pytree utility tree_map as a structure-preserving map, and the dispatch
guard as a count of active _DisableTorchDispatch guards.  Fallible steps
(an operation raising, calling a non-callable attribute) are modelled with
Except.
-/

namespace XlaShardedSpec

/-- A (host-visible) torch tensor.  The field tid models Python object
identity: two tensors are the same Python object exactly when their tids
coincide.  shape models tensor.size() and requires_grad the autograd flag.
Strides, dtype, layout and device play no role in any claim and are
omitted. -/
structure Torch.Tensor where
  tid : Nat
  shape : List Nat
  requires_grad : Bool
deriving DecidableEq, Repr

/-- torch.Tensor.detach returns a fresh tensor object (a new Python object,
here given the fresh identity freshTid) sharing data with the original but
with gradient tracking off. -/
def Torch.Tensor.detach (t : Torch.Tensor) (freshTid : Nat) : Torch.Tensor :=
  ⟨freshTid, t.shape, false⟩

/-- XLAShard (source lines 9-12): a dataclass pairing the per-device data
buffer with the integer rank of the device holding it. -/
structure XLAShard where
  data : Torch.Tensor
  rank : Nat
deriving DecidableEq, Repr

/-- A Python value as seen by the fragment: a plain torch.Tensor, an
XLAShardedTensor instance, or any non-tensor object (identified by a tag).

An XLAShardedTensor instance (source lines 24-89) carries
  * global_tensor: the wrapped value (annotated torch.Tensor in the source;
    the implicit wrapping path applies to any isinstance torch.Tensor value,
    which includes XLAShardedTensor itself, so the field is recursive);
  * mesh_shape and partition_spec: class-level annotations, set by the
    construction routine and otherwise absent (none);
  * local_shards: the class attribute defaulting to Python None (none);
  * requires_grad: the intrinsic autograd flag the wrapper is created with
    (torch.Tensor._make_wrapper_subclass receives it from kwargs). -/
inductive PyObj where
  | tensor (t : Torch.Tensor)
  | shardedTensor (global_tensor : PyObj)
      (mesh_shape : Option (List Nat))
      (partition_spec : Option (List (Option Nat)))
      (local_shards : Option (List XLAShard))
      (requires_grad : Bool)
  | other (o : Nat)
deriving DecidableEq, Repr

/-- isinstance(v, torch.Tensor): true for plain tensors and for
XLAShardedTensor instances (a torch.Tensor subclass). -/
def PyObj.isTensorLike : PyObj → Bool
  | .tensor _ => true
  | .shardedTensor _ _ _ _ _ => true
  | .other _ => false

/-- isinstance(v, XLAShardedTensor). -/
def PyObj.isSharded : PyObj → Bool
  | .shardedTensor _ _ _ _ _ => true
  | _ => false

/-- Reading the global_tensor attribute of a value (some only on
XLAShardedTensor instances; on anything else the attribute is absent). -/
def PyObj.global_tensorOf : PyObj → Option PyObj
  | .shardedTensor g _ _ _ _ => some g
  | _ => none

/-- Reading the mesh_shape attribute (set only by the construction routine). -/
def PyObj.mesh_shapeOf : PyObj → Option (List Nat)
  | .shardedTensor _ m _ _ _ => m
  | _ => none

/-- Reading the partition_spec attribute (set only by the construction
routine). -/
def PyObj.partition_specOf : PyObj → Option (List (Option Nat))
  | .shardedTensor _ _ p _ _ => p
  | _ => none

/-- Reading the local_shards attribute (class default None until backend
execution populates it; nothing in the fragment ever writes it). -/
def PyObj.local_shardsOf : PyObj → Option (List XLAShard)
  | .shardedTensor _ _ _ ls _ => ls
  | _ => none

/-- XLAShardedTensor.new (source lines 66-81).  The routine
  1. creates the wrapper object via torch.Tensor._make_wrapper_subclass,
     copying the intrinsic shape, strides, storage offset, dtype, layout and
     device of elem and taking requires_grad from kwargs (default False);
  2. stores r.global_tensor = elem.detach() if r.requires_grad else elem
     (detach allocates a fresh tensor object, modelled by freshTid);
  3. stores r.mesh_shape = mesh_shape and r.partition_spec = partition_spec
     verbatim.
No other attribute is written; in particular local_shards keeps the class
default None.  The routine performs no validation of mesh_shape or
partition_spec. -/
def XLAShardedTensor.new (elem : Torch.Tensor) (mesh_shape : List Nat)
    (partition_spec : List (Option Nat)) (requires_grad : Bool)
    (freshTid : Nat) : PyObj :=
  PyObj.shardedTensor
    (.tensor (if requires_grad then elem.detach freshTid else elem))
    (some mesh_shape) (some partition_spec) none requires_grad

/-- The size property (source lines 83-86): returns
self.global_tensor.size(), the global (unpartitioned) shape.  Every handle
the construction routine produces stores a plain tensor as global_tensor,
for which the inner size() call returns its shape; on any other receiver
the access does not produce a shape (none). -/
def XLAShardedTensor.size : PyObj → Option (List Nat)
  | .shardedTensor (.tensor t) _ _ _ _ => some t.shape
  | _ => none

/-- unwrap (source lines 109-110): elem.global_tensor if
isinstance(elem, XLAShardedTensor) else elem. -/
def unwrap : PyObj → PyObj
  | .shardedTensor g _ _ _ _ => g
  | v => v

/-- wrap (source lines 112-113): XLAShardedTensor(elem) if
isinstance(elem, torch.Tensor) else elem.  The implicit construction passes
only elem, so the wrapper stores elem as global_tensor while mesh_shape and
partition_spec stay absent (spec: metadata in this path is propagated or
re-derived by the excluded backend), local_shards keeps the class default
None, and requires_grad takes its default False. -/
def wrap (elem : PyObj) : PyObj :=
  if elem.isTensorLike then .shardedTensor elem none none none false else elem

/-- All shard records reachable from a value: the local_shards list of every
XLAShardedTensor layer. -/
def shardsOf : PyObj → List XLAShard
  | .tensor _ => []
  | .shardedTensor g _ _ ls _ => ls.getD [] ++ shardsOf g
  | .other _ => []

/-- A pytree: an arbitrarily nested combination of ordered sequences,
key-value mappings, and leaf values, as traversed by
torch.utils._pytree.tree_map. -/
inductive PyTree where
  | leaf (v : PyObj)
  | listNode (xs : List PyTree)
  | dictNode (kvs : List (String × PyTree))

mutual

/-- tree_map (torch.utils._pytree): applies f to every leaf of the nested
structure and rebuilds the same nesting shape with transformed leaves. -/
def tree_map (f : PyObj → PyObj) : PyTree → PyTree
  | .leaf v => .leaf (f v)
  | .listNode xs => .listNode (tree_mapList f xs)
  | .dictNode kvs => .dictNode (tree_mapDict f kvs)

/-- tree_map over the children of a sequence node. -/
def tree_mapList (f : PyObj → PyObj) : List PyTree → List PyTree
  | [] => []
  | t :: ts => tree_map f t :: tree_mapList f ts

/-- tree_map over the entries of a mapping node (keys untouched). -/
def tree_mapDict (f : PyObj → PyObj) :
    List (String × PyTree) → List (String × PyTree)
  | [] => []
  | (k, t) :: ts => (k, tree_map f t) :: tree_mapDict f ts

end

/-- The bare nesting shape of a pytree: container kinds and mapping keys,
with leaf contents erased. -/
inductive TreeShape where
  | leaf
  | listNode (xs : List TreeShape)
  | dictNode (kvs : List (String × TreeShape))

mutual

/-- The nesting shape of a pytree. -/
def shapeOfTree : PyTree → TreeShape
  | .leaf _ => .leaf
  | .listNode xs => .listNode (shapeOfTreeList xs)
  | .dictNode kvs => .dictNode (shapeOfTreeDict kvs)

/-- Nesting shapes of the children of a sequence node. -/
def shapeOfTreeList : List PyTree → List TreeShape
  | [] => []
  | t :: ts => shapeOfTree t :: shapeOfTreeList ts

/-- Nesting shapes of the entries of a mapping node. -/
def shapeOfTreeDict : List (String × PyTree) → List (String × TreeShape)
  | [] => []
  | (k, t) :: ts => (k, shapeOfTree t) :: shapeOfTreeDict ts

end

mutual

/-- The leaves of a pytree, in traversal order. -/
def leavesOf : PyTree → List PyObj
  | .leaf v => [v]
  | .listNode xs => leavesOfList xs
  | .dictNode kvs => leavesOfDict kvs

/-- Leaves of the children of a sequence node. -/
def leavesOfList : List PyTree → List PyObj
  | [] => []
  | t :: ts => leavesOf t ++ leavesOfList ts

/-- Leaves of the entries of a mapping node. -/
def leavesOfDict : List (String × PyTree) → List PyObj
  | [] => []
  | (_, t) :: ts => leavesOf t ++ leavesOfDict ts

end

/-- The dispatcher state: the number of currently active
_DisableTorchDispatch guards.  Interception can fire only while no guard is
active. -/
abbrev GuardCount := Nat

/-- Entering no_dispatch (source lines 15-21): the context manager allocates
a _DisableTorchDispatch guard. -/
def no_dispatch_enter (g : GuardCount) : GuardCount := g + 1

/-- Leaving no_dispatch: the finally block deletes the guard.  The
try/finally discipline of the context manager runs this on every exit path,
normal or raising. -/
def no_dispatch_exit (g : GuardCount) : GuardCount := g - 1

/-- The body of XLAShardedTensor dispatch interception (source lines
108-121), invoked by the dispatcher with the operation func, the positional
operand tree args and the keyword operand tree kwargs:
  1. enter no_dispatch;
  2. re-dispatch func on tree_map(unwrap, args) and tree_map(unwrap, kwargs)
     (the operation may raise, modelled by Except);
  3. on normal return, rewrap the result with tree_map(wrap, -);
  4. the finally block of no_dispatch releases the guard on both paths, and
     an error propagates unchanged to the caller.
Returns the outcome together with the final guard count. -/
def torch_dispatch (func : PyTree → PyTree → Except String PyTree)
    (args kwargs : PyTree) (g : GuardCount) :
    Except String PyTree × GuardCount :=
  let g1 := no_dispatch_enter g
  let inner := func (tree_map unwrap args) (tree_map unwrap kwargs)
  let rs : Except String PyTree :=
    match inner with
    | .ok r => .ok (tree_map wrap r)
    | .error e => .error e
  (rs, no_dispatch_exit g1)

/-- A dynamic call tree of tensor operations: an operation records whether
an XLAShardedTensor operand is present among its arguments, and the list of
inner tensor operations its implementation performs in turn. -/
inductive OpCall where
  | mk (hasShardedOperand : Bool) (inners : List OpCall)

mutual

/-- How many times the dispatch-interception hook is entered while running
an operation with g active _DisableTorchDispatch guards.  The torch
dispatcher invokes the subclass hook exactly when no guard is active and an
XLAShardedTensor operand is present; the hook body then re-dispatches the
inner operations under no_dispatch (source lines 115-121), i.e. with the
guard count incremented.  A non-intercepted operation runs its inner
operations at the unchanged guard count. -/
def entriesOf (g : GuardCount) : OpCall → Nat
  | .mk sh inners =>
    if g = 0 ∧ sh = true then 1 + entriesOfList (no_dispatch_enter g) inners
    else entriesOfList g inners

/-- Total interception entries over a list of inner operations. -/
def entriesOfList (g : GuardCount) : List OpCall → Nat
  | [] => 0
  | op :: ops => entriesOf g op + entriesOfList g ops

end

/-- The value obtained by the attribute access x.size under CPython
descriptor rules: either the bound size method (on a plain torch.Tensor) or
a torch.Size value (on an XLAShardedTensor, whose class dictionary defines
size as a property, source lines 83-86, shadowing the inherited method). -/
inductive SizeAttr where
  | sizeMethod (t : Torch.Tensor)
  | sizeValue (s : List Nat)
deriving DecidableEq, Repr

/-- Python errors relevant to the size attribute. -/
inductive PyError where
  | typeError
  | attributeError
deriving DecidableEq, Repr

/-- The attribute access x.size.  On an XLAShardedTensor instance the class
property (a data descriptor) takes precedence over the inherited
torch.Tensor.size method and its getter evaluates
self.global_tensor.size(); on a plain tensor the access yields the bound
method. -/
def getattr_size : PyObj → Except PyError SizeAttr
  | .tensor t => .ok (.sizeMethod t)
  | .shardedTensor g _ _ _ _ =>
    match g with
    | .tensor t => .ok (.sizeValue t.shape)
    | _ => .error .typeError
  | .other _ => .error .attributeError

/-- Calling the value obtained from x.size.  The bound method returns the
shape; a torch.Size value is not callable, so the call raises TypeError. -/
def call_size_attr : SizeAttr → Except PyError (List Nat)
  | .sizeMethod t => .ok t.shape
  | .sizeValue _ => .error .typeError

/-- A concrete operation used to exercise the dispatch path: it returns a
sequence holding both operand trees. -/
def dispatchDemoFunc : PyTree → PyTree → Except String PyTree :=
  fun a k => .ok (.listNode [a, k])

/-- A concrete positional operand tree mixing an XLAShardedTensor, a plain
tensor and a non-tensor value. -/
def dispatchDemoArgs : PyTree :=
  .listNode
    [.leaf (.shardedTensor (.tensor ⟨0, [2, 3], false⟩) (some [2])
        (some [some 0, none]) none false),
     .leaf (.tensor ⟨1, [4], false⟩),
     .leaf (.other 7)]

/-- A concrete keyword operand tree. -/
def dispatchDemoKwargs : PyTree :=
  .dictNode [("alpha", .leaf (.tensor ⟨2, [5], false⟩))]

/-- The tree dispatchDemoFunc returns on the unwrapped demo operands. -/
def dispatchDemoDirect : PyTree :=
  .listNode [tree_map unwrap dispatchDemoArgs, tree_map unwrap dispatchDemoKwargs]

/-- A concrete operation that raises. -/
def failingFunc : PyTree → PyTree → Except String PyTree :=
  fun _ _ => .error "boom"

/-- A concrete shard record. -/
def demoShard : XLAShard := ⟨⟨7, [1], false⟩, 0⟩

/-- A concrete handle whose wrapped value carries a materialized shard
list. -/
def demoHandle : PyObj :=
  .shardedTensor
    (.shardedTensor (.tensor ⟨0, [1], false⟩) none none (some [demoShard]) false)
    none none none false

/-! Helper lemmas: tree_map preserves the nesting shape and acts leafwise,
and interception cannot fire while a guard is active. -/

mutual

theorem shapeOf_tree_map (f : PyObj → PyObj) :
    (t : PyTree) → shapeOfTree (tree_map f t) = shapeOfTree t
  | .leaf _ => rfl
  | .listNode xs => by
    simp only [tree_map, shapeOfTree]
    exact congrArg TreeShape.listNode (shapeOf_tree_mapList f xs)
  | .dictNode kvs => by
    simp only [tree_map, shapeOfTree]
    exact congrArg TreeShape.dictNode (shapeOf_tree_mapDict f kvs)

theorem shapeOf_tree_mapList (f : PyObj → PyObj) :
    (xs : List PyTree) → shapeOfTreeList (tree_mapList f xs) = shapeOfTreeList xs
  | [] => rfl
  | t :: ts => by
    simp only [tree_mapList, shapeOfTreeList]
    rw [shapeOf_tree_map f t, shapeOf_tree_mapList f ts]

theorem shapeOf_tree_mapDict (f : PyObj → PyObj) :
    (ts : List (String × PyTree)) →
      shapeOfTreeDict (tree_mapDict f ts) = shapeOfTreeDict ts
  | [] => rfl
  | (k, t) :: ts => by
    simp only [tree_mapDict, shapeOfTreeDict]
    rw [shapeOf_tree_map f t, shapeOf_tree_mapDict f ts]

end

mutual

theorem leavesOf_tree_map (f : PyObj → PyObj) :
    (t : PyTree) → leavesOf (tree_map f t) = (leavesOf t).map f
  | .leaf _ => rfl
  | .listNode xs => by
    simp only [tree_map, leavesOf]
    exact leavesOf_tree_mapList f xs
  | .dictNode kvs => by
    simp only [tree_map, leavesOf]
    exact leavesOf_tree_mapDict f kvs

theorem leavesOf_tree_mapList (f : PyObj → PyObj) :
    (xs : List PyTree) → leavesOfList (tree_mapList f xs) = (leavesOfList xs).map f
  | [] => rfl
  | t :: ts => by
    simp only [tree_mapList, leavesOfList, List.map_append]
    rw [leavesOf_tree_map f t, leavesOf_tree_mapList f ts]

theorem leavesOf_tree_mapDict (f : PyObj → PyObj) :
    (ts : List (String × PyTree)) →
      leavesOfDict (tree_mapDict f ts) = (leavesOfDict ts).map f
  | [] => rfl
  | (k, t) :: ts => by
    simp only [tree_mapDict, leavesOfDict, List.map_append]
    rw [leavesOf_tree_map f t, leavesOf_tree_mapDict f ts]

end

mutual

theorem entriesOf_suspended :
    (g : GuardCount) → g ≠ 0 → (op : OpCall) → entriesOf g op = 0
  | g, hg, .mk sh inners => by
    have hcond : ¬(g = 0 ∧ sh = true) := fun h => hg h.1
    simp only [entriesOf, if_neg hcond]
    exact entriesOfList_suspended g hg inners

theorem entriesOfList_suspended :
    (g : GuardCount) → g ≠ 0 → (ops : List OpCall) → entriesOfList g ops = 0
  | _, _, [] => rfl
  | g, hg, op :: ops => by
    simp only [entriesOfList]
    rw [entriesOf_suspended g hg op, entriesOfList_suspended g hg ops]

end

/-- C1: for every operation func and operand trees (positional and keyword)
mixing XLAShardedTensor values and plain tensors, a dispatched call whose
underlying operation returns a tree direct yields a result tree of
identical nesting shape in which the leaves are exactly the wrap images of
the direct leaves: every tensor-like leaf is wrapped into a new
XLAShardedTensor holding it as global_tensor, and every non-tensor leaf
passes through unchanged. -/
theorem claim_C1_dispatch_rewraps_structurally
    (func : PyTree → PyTree → Except String PyTree)
    (args kwargs : PyTree) (g : GuardCount) (direct : PyTree)
    (hok : func (tree_map unwrap args) (tree_map unwrap kwargs) = .ok direct) :
    ∃ r, (torch_dispatch func args kwargs g).1 = .ok r ∧
      shapeOfTree r = shapeOfTree direct ∧
      leavesOf r = (leavesOf direct).map wrap ∧
      (∀ v : PyObj, v.isTensorLike = true →
        wrap v = PyObj.shardedTensor v none none none false) ∧
      (∀ v : PyObj, v.isTensorLike = false → wrap v = v) := by
  refine ⟨tree_map wrap direct, ?_, shapeOf_tree_map wrap direct,
    leavesOf_tree_map wrap direct, ?_, ?_⟩
  · simp [torch_dispatch, hok]
  · intro v hv; simp [wrap, hv]
  · intro v hv; simp [wrap, hv]

/-- C1 witness: the dispatch property at a concrete operation and concrete
mixed operand trees. -/
theorem claim_C1_witness :
    ∃ r, (torch_dispatch dispatchDemoFunc dispatchDemoArgs dispatchDemoKwargs 0).1
        = .ok r ∧
      shapeOfTree r = shapeOfTree dispatchDemoDirect ∧
      leavesOf r = (leavesOf dispatchDemoDirect).map wrap ∧
      (∀ v : PyObj, v.isTensorLike = true →
        wrap v = PyObj.shardedTensor v none none none false) ∧
      (∀ v : PyObj, v.isTensorLike = false → wrap v = v) :=
  claim_C1_dispatch_rewraps_structurally dispatchDemoFunc dispatchDemoArgs
    dispatchDemoKwargs 0 dispatchDemoDirect rfl

/-- C2 counterexample: constructing a handle from a rank-2 tensor with a
length-1 partition_spec does not fail; it returns a normally formed handle
with the mismatched spec stored verbatim, so no shape-length matching
happens at construction time. -/
theorem claim_C2_counterexample :
    XLAShardedTensor.new ⟨0, [8, 10], false⟩ [4, 2] [some 0] false 1
      = PyObj.shardedTensor (.tensor ⟨0, [8, 10], false⟩) (some [4, 2])
          (some [some 0]) none false ∧
    ([some 0] : List (Option Nat)).length
      ≠ (⟨0, [8, 10], false⟩ : Torch.Tensor).shape.length :=
  ⟨rfl, by decide⟩

/-- C2 amended: construction performs no validation of partition_spec
length against the tensor rank: even a spec whose length differs from the
rank is accepted, and the handle comes back normally formed with the spec
and mesh stored verbatim and local_shards absent. -/
theorem claim_C2_no_construction_validation
    (t : Torch.Tensor) (m : List Nat) (p : List (Option Nat))
    (rg : Bool) (fr : Nat) (hmis : p.length ≠ t.shape.length) :
    (XLAShardedTensor.new t m p rg fr).partition_specOf = some p ∧
    (XLAShardedTensor.new t m p rg fr).mesh_shapeOf = some m ∧
    (XLAShardedTensor.new t m p rg fr).local_shardsOf = none :=
  ⟨rfl, rfl, rfl⟩

/-- C2 witness: the amended property at a concrete mismatched spec. -/
theorem claim_C2_witness :
    ([some 0] : List (Option Nat)).length
      ≠ (⟨0, [8, 10], false⟩ : Torch.Tensor).shape.length ∧
    ((XLAShardedTensor.new ⟨0, [8, 10], false⟩ [4, 2] [some 0] false 1).partition_specOf
        = some [some 0] ∧
      (XLAShardedTensor.new ⟨0, [8, 10], false⟩ [4, 2] [some 0] false 1).mesh_shapeOf
        = some [4, 2] ∧
      (XLAShardedTensor.new ⟨0, [8, 10], false⟩ [4, 2] [some 0] false 1).local_shardsOf
        = none) :=
  ⟨by decide,
   claim_C2_no_construction_validation ⟨0, [8, 10], false⟩ [4, 2] [some 0]
     false 1 (by decide)⟩

/-- C3: for every plain tensor, mesh shape and valid partition spec (length
equal to the rank, entries None or an index below the mesh length), the
constructed handle reports as its size exactly the global shape of the
input tensor, whichever requires_grad flag was passed; and the query
depends only on global_tensor, so it is stable whatever local_shards
currently holds.  The query is a pure function of the handle. -/
theorem claim_C3_size_reports_global_shape
    (t : Torch.Tensor) (m : List Nat) (p : List (Option Nat))
    (rg : Bool) (fr : Nat)
    (hlen : p.length = t.shape.length)
    (hvalid : ∀ e ∈ p, ∀ j, e = some j → j < m.length) :
    XLAShardedTensor.size (XLAShardedTensor.new t m p rg fr) = some t.shape ∧
    ∀ ls rg2, XLAShardedTensor.size
        (PyObj.shardedTensor (.tensor t) (some m) (some p) ls rg2)
      = some t.shape := by
  constructor
  · cases rg <;>
      simp [XLAShardedTensor.new, XLAShardedTensor.size, Torch.Tensor.detach]
  · intro ls rg2; rfl

/-- C3 witness: the 8x10 tensor on a (4,2) mesh with spec (0, None) from
the specification scenario. -/
theorem claim_C3_witness :
    ([some 0, none] : List (Option Nat)).length
      = (⟨0, [8, 10], false⟩ : Torch.Tensor).shape.length ∧
    (∀ e ∈ ([some 0, none] : List (Option Nat)), ∀ j, e = some j →
      j < ([4, 2] : List Nat).length) ∧
    (XLAShardedTensor.size
        (XLAShardedTensor.new ⟨0, [8, 10], false⟩ [4, 2] [some 0, none] false 1)
      = some [8, 10] ∧
     ∀ ls rg2, XLAShardedTensor.size
        (PyObj.shardedTensor (.tensor ⟨0, [8, 10], false⟩) (some [4, 2])
          (some [some 0, none]) ls rg2)
      = some [8, 10]) :=
  ⟨by decide, by decide,
   claim_C3_size_reports_global_shape ⟨0, [8, 10], false⟩ [4, 2]
     [some 0, none] false 1 (by decide) (by decide)⟩

/-- C4: if gradient tracking is requested at construction, the stored
global_tensor is the detached copy of elem (a fresh object, hence distinct
from elem, with gradient tracking off); if it is not requested, the stored
global_tensor is elem itself, the same object. -/
theorem claim_C4_grad_detach
    (t : Torch.Tensor) (m : List Nat) (p : List (Option Nat)) (fr : Nat)
    (hfresh : fr ≠ t.tid) :
    (XLAShardedTensor.new t m p true fr).global_tensorOf
      = some (.tensor (t.detach fr)) ∧
    (t.detach fr).requires_grad = false ∧
    t.detach fr ≠ t ∧
    (XLAShardedTensor.new t m p false fr).global_tensorOf = some (.tensor t) := by
  refine ⟨rfl, rfl, ?_, rfl⟩
  intro h
  exact hfresh (congrArg Torch.Tensor.tid h)

/-- C4 witness: the gradient-tracking dichotomy at a concrete tensor and a
concrete fresh identity. -/
theorem claim_C4_witness :
    (1 : Nat) ≠ (⟨0, [2], true⟩ : Torch.Tensor).tid ∧
    ((XLAShardedTensor.new ⟨0, [2], true⟩ [2] [some 0] true 1).global_tensorOf
        = some (.tensor ((⟨0, [2], true⟩ : Torch.Tensor).detach 1)) ∧
      ((⟨0, [2], true⟩ : Torch.Tensor).detach 1).requires_grad = false ∧
      (⟨0, [2], true⟩ : Torch.Tensor).detach 1 ≠ ⟨0, [2], true⟩ ∧
      (XLAShardedTensor.new ⟨0, [2], true⟩ [2] [some 0] false 1).global_tensorOf
        = some (.tensor ⟨0, [2], true⟩)) :=
  ⟨by decide, claim_C4_grad_detach ⟨0, [2], true⟩ [2] [some 0] 1 (by decide)⟩

/-- C5: round-trip of the dispatch helpers.  Unwrapping a wrapped plain
tensor gives back the very tensor; and wrapping the unwrapped value of a
handle (whose global_tensor is a tensor, as every handle stores) yields a
handle with the same global_tensor. -/
theorem claim_C5_round_trip :
    (∀ t : Torch.Tensor, unwrap (wrap (.tensor t)) = .tensor t) ∧
    (∀ (gt : PyObj) ms ps ls rg, gt.isTensorLike = true →
      (wrap (unwrap (PyObj.shardedTensor gt ms ps ls rg))).global_tensorOf
        = (PyObj.shardedTensor gt ms ps ls rg).global_tensorOf) := by
  constructor
  · intro t
    simp [wrap, unwrap, PyObj.isTensorLike]
  · intro gt ms ps ls rg h
    show (wrap gt).global_tensorOf = some gt
    cases gt with
    | tensor t => simp [wrap, PyObj.isTensorLike, PyObj.global_tensorOf]
    | shardedTensor g m p l r =>
      simp [wrap, PyObj.isTensorLike, PyObj.global_tensorOf]
    | other o => simp [PyObj.isTensorLike] at h

/-- C5 witness: the round trip at a concrete tensor and a concrete
handle. -/
theorem claim_C5_witness :
    (wrap (unwrap (PyObj.shardedTensor (.tensor ⟨3, [2], false⟩) (some [2])
        (some [some 0]) none false))).global_tensorOf
      = (PyObj.shardedTensor (.tensor ⟨3, [2], false⟩) (some [2])
          (some [some 0]) none false).global_tensorOf :=
  claim_C5_round_trip.2 (.tensor ⟨3, [2], false⟩) (some [2]) (some [some 0])
    none false rfl

/-- C6: on every exit path of a dispatched call, normal return or an error
raised by the underlying operation, the guard entered at the start is
released before control returns: the final guard count equals the initial
one, and a raising operation propagates its error unchanged. -/
theorem claim_C6_guard_released_on_every_exit
    (func : PyTree → PyTree → Except String PyTree) (args kwargs : PyTree)
    (g : GuardCount) :
    (torch_dispatch func args kwargs g).2 = g ∧
    (∀ e, func (tree_map unwrap args) (tree_map unwrap kwargs) = .error e →
      (torch_dispatch func args kwargs g).1 = .error e) := by
  constructor
  · simp [torch_dispatch, no_dispatch_enter, no_dispatch_exit]
  · intro e he
    simp [torch_dispatch, he]

/-- C6 witness: a concrete raising operation leaves the guard count at its
initial value and propagates the error unchanged. -/
theorem claim_C6_witness :
    (torch_dispatch failingFunc (.leaf (.other 0)) (.dictNode []) 0).2 = 0 ∧
    (torch_dispatch failingFunc (.leaf (.other 0)) (.dictNode []) 0).1
      = .error "boom" :=
  ⟨(claim_C6_guard_released_on_every_exit failingFunc (.leaf (.other 0))
      (.dictNode []) 0).1,
   (claim_C6_guard_released_on_every_exit failingFunc (.leaf (.other 0))
      (.dictNode []) 0).2 "boom" rfl⟩

/-- C7: recursion safety of dispatch.  An operation with an
XLAShardedTensor operand, run with no active guard, enters the interception
hook exactly once however deeply its implementation nests inner tensor
operations (they all run under no_dispatch); and while any guard is active
no operation whatsoever enters interception. -/
theorem claim_C7_no_reentry (inners : List OpCall) :
    entriesOf 0 (.mk true inners) = 1 ∧
    (∀ g, g ≠ 0 → ∀ op, entriesOf g op = 0) := by
  constructor
  · have h0 : entriesOf 0 (.mk true inners)
        = 1 + entriesOfList (no_dispatch_enter 0) inners := by
      simp [entriesOf, no_dispatch_enter]
    rw [h0, entriesOfList_suspended (no_dispatch_enter 0) (by decide) inners]
  · intro g hg op
    exact entriesOf_suspended g hg op

/-- C7 witness: a concrete operation with sharded operands whose
implementation again performs operations with sharded operands enters
interception exactly once, and under an active guard enters zero times. -/
theorem claim_C7_witness :
    entriesOf 0 (.mk true [.mk true [.mk true []], .mk false [.mk true []]]) = 1 ∧
    entriesOf 1 (.mk true [.mk true []]) = 0 :=
  ⟨(claim_C7_no_reentry [.mk true [.mk true []], .mk false [.mk true []]]).1,
   (claim_C7_no_reentry []).2 1 (by decide) (.mk true [.mk true []])⟩

/-- C8: shard records are immutable under every operation of this
component: unwrapping only ever exposes shard records already present,
wrapping adds none and alters none, and construction produces a handle
holding no shard record at all — so no operation of the fragment changes
the data or rank of an existing XLAShard. -/
theorem claim_C8_shards_immutable
    (v : PyObj) (t : Torch.Tensor) (m : List Nat) (p : List (Option Nat))
    (rg : Bool) (fr : Nat) :
    (∀ s ∈ shardsOf (unwrap v), s ∈ shardsOf v) ∧
    shardsOf (wrap v) = shardsOf v ∧
    shardsOf (XLAShardedTensor.new t m p rg fr) = [] := by
  refine ⟨?_, ?_, ?_⟩
  · intro s hs
    cases v with
    | tensor t0 => exact hs
    | shardedTensor g mm pp ls r =>
      simp only [shardsOf, List.mem_append]
      exact Or.inr hs
    | other o => exact hs
  · cases v with
    | tensor t0 => simp [wrap, shardsOf, PyObj.isTensorLike]
    | shardedTensor g mm pp ls r => simp [wrap, shardsOf, PyObj.isTensorLike]
    | other o => simp [wrap, PyObj.isTensorLike]
  · cases rg <;> simp [XLAShardedTensor.new, shardsOf]

/-- C8 witness: the preservation properties at a concrete handle carrying a
materialized shard. -/
theorem claim_C8_witness :
    demoShard ∈ shardsOf demoHandle ∧
    shardsOf (wrap demoHandle) = shardsOf demoHandle ∧
    shardsOf (XLAShardedTensor.new ⟨0, [1], false⟩ [1] [some 0] false 1) = [] :=
  ⟨(claim_C8_shards_immutable demoHandle ⟨0, [1], false⟩ [1] [some 0] false 1).1
      demoShard (by decide),
   (claim_C8_shards_immutable demoHandle ⟨0, [1], false⟩ [1] [some 0] false 1).2.1,
   (claim_C8_shards_immutable demoHandle ⟨0, [1], false⟩ [1] [some 0] false 1).2.2⟩

/-- C9: on a constructed handle the attribute access x.size goes through
the class property and evaluates directly to the global shape value, a
torch.Size; calling that value as x.size() raises TypeError because a
torch.Size is not callable.  On a plain tensor the same access yields the
inherited bound method, which the property shadows on the subclass, and
calling it returns the shape. -/
theorem claim_C9_size_property_not_callable
    (t : Torch.Tensor) (m : List Nat) (p : List (Option Nat))
    (rg : Bool) (fr : Nat) :
    getattr_size (XLAShardedTensor.new t m p rg fr)
      = .ok (.sizeValue t.shape) ∧
    (∀ a, getattr_size (XLAShardedTensor.new t m p rg fr) = .ok a →
      call_size_attr a = .error .typeError) ∧
    getattr_size (.tensor t) = .ok (.sizeMethod t) ∧
    call_size_attr (.sizeMethod t) = .ok t.shape := by
  have hget : getattr_size (XLAShardedTensor.new t m p rg fr)
      = .ok (.sizeValue t.shape) := by
    cases rg <;>
      simp [XLAShardedTensor.new, getattr_size, Torch.Tensor.detach]
  refine ⟨hget, ?_, rfl, rfl⟩
  intro a ha
  rw [hget] at ha
  injection ha with h
  rw [← h]
  rfl

/-- C9 witness: the property-versus-method behaviour at a concrete handle
and its underlying tensor. -/
theorem claim_C9_witness :
    getattr_size (XLAShardedTensor.new ⟨0, [8, 10], false⟩ [4, 2]
        [some 0, none] false 1)
      = .ok (.sizeValue [8, 10]) ∧
    call_size_attr (.sizeValue [8, 10]) = .error .typeError ∧
    getattr_size (.tensor ⟨0, [8, 10], false⟩)
      = .ok (.sizeMethod ⟨0, [8, 10], false⟩) ∧
    call_size_attr (.sizeMethod ⟨0, [8, 10], false⟩) = .ok [8, 10] :=
  ⟨(claim_C9_size_property_not_callable ⟨0, [8, 10], false⟩ [4, 2]
      [some 0, none] false 1).1,
   (claim_C9_size_property_not_callable ⟨0, [8, 10], false⟩ [4, 2]
      [some 0, none] false 1).2.1 (.sizeValue [8, 10]) rfl,
   (claim_C9_size_property_not_callable ⟨0, [8, 10], false⟩ [4, 2]
      [some 0, none] false 1).2.2.1,
   (claim_C9_size_property_not_callable ⟨0, [8, 10], false⟩ [4, 2]
      [some 0, none] false 1).2.2.2⟩

/-- C10: construction sets exactly global_tensor (elem or its detached
copy), mesh_shape and partition_spec (both verbatim as given, uncopied and
unvalidated), besides the intrinsic requires_grad the wrapper is created
with; local_shards stays absent (None) on every freshly constructed
handle. -/
theorem claim_C10_construction_frame
    (t : Torch.Tensor) (m : List Nat) (p : List (Option Nat))
    (rg : Bool) (fr : Nat) :
    XLAShardedTensor.new t m p rg fr
      = PyObj.shardedTensor (.tensor (if rg then t.detach fr else t))
          (some m) (some p) none rg ∧
    (XLAShardedTensor.new t m p rg fr).local_shardsOf = none :=
  ⟨rfl, rfl⟩

end XlaShardedSpec
